import Mathlib

/-!
Verification development for the ghost-agent oracle.

Shallow embedding of the intent-processing pipeline of the repository:
the CRA audit checks and `perform_cra_audit` (src/oracle/ghost_oracle.py
lines 81-135, with the near-identical variants in src/oracle/cra_audit.py),
the salt guard `check_contract_salt`, `sign_intent` and `execute_tx`
(src/oracle/utils.py), the orchestration `handle_intent`
(src/oracle/ghost_oracle.py lines 190-211) and the event monitor
`monitor_job` (src/oracle/ghost_oracle.py lines 217-224).

External collaborators (the off-chain payload store, the risk-scoring
service, the chain RPC) are modelled at their boundary as explicit
environment values: a fetch either raises (`none`) or yields a payload; the
risk service either fails at transport level, returns an unparseable body,
or returns a parsed body with an optional riskScore field; each transaction
submission has an environment giving the fresh nonce, the gas price, the
gas-estimation outcome, whether the broadcast succeeds and the receipt
status. Python exceptions inside pure helpers are modelled as `Option`
(`none` = the helper raised).
-/

namespace GhostAgent

/-- A JSON-ish field value as far as the CRA checks can observe it: an
integer or a string. A payload field may also be absent, which the payload
structure models with `Option`. -/
inductive JVal where
  | jint (n : Int)
  | jstr (s : String)

/-- Accumulator pass over a character list: `some` of the decimal value of
the digits when all characters are digits, `none` otherwise. -/
def parseDigitsAux : List Char → Nat → Option Nat
  | [], acc => some acc
  | c :: cs, acc =>
    if c.isDigit then parseDigitsAux cs (acc * 10 + (c.toNat - 48)) else none

/-- Parse a string as a decimal integer numeral, optionally prefixed by a
minus sign (codepoint 45); `none` when the string is empty or contains a
non-digit. This models the success set of Python `int(str)` for the inputs
relevant here (Python additionally strips whitespace and accepts a plus
sign and digit-group underscores; no claim depends on those). -/
def pyParseInt (s : String) : Option Int :=
  match s.data with
  | [] => none
  | c :: cs =>
    if c = Char.ofNat 45 then
      match cs with
      | [] => none
      | _ => (parseDigitsAux cs 0).map (fun n => -(n : Int))
    else (parseDigitsAux (c :: cs) 0).map (fun n => (n : Int))

/-- Python `int(v)` as applied by the checks: an integer is returned as is;
a string is parsed as an optionally signed decimal numeral and raises
`ValueError` (modelled as `none`) when it does not parse. -/
def pyInt : JVal → Option Int
  | JVal.jint n => some n
  | JVal.jstr s => pyParseInt s

/-- The off-chain IntentPayload as fetched by `fetch_intent_payload`:
a JSON object whose fields relevant to the checks may be absent or
ill-typed. `metadata` is forwarded opaquely to the risk service and never
inspected by any check. -/
structure Payload where
  timestamp : Option JVal
  amountWei : Option JVal
  originCountry : Option JVal
  intentHash : Option JVal
  metadata : List (String × String)

/-- CRA_CONFIG time_window_seconds (ghost_oracle.py line 64). -/
def time_window_seconds : Int := 300

/-- CRA_CONFIG max_amount_wei, the 1 ETH demo limit (ghost_oracle.py line 63). -/
def max_amount_wei : Int := 10 ^ 18

/-- CRA_CONFIG allowed_countries (ghost_oracle.py line 62). -/
def allowed_countries : List String := [r"US", r"CA", r"GB", r"DE"]

/-- Embeds `_check_timestamp` (ghost_oracle.py lines 81-84): the timestamp
field defaults to 0 when absent, is coerced with `int(...)` (which can
raise, the `none` outcome), and the check passes iff
`now - ts <= time_window_seconds`. The cra_audit.py variant parses an ISO
timestamp and raises on a missing or malformed one; that raising behaviour
is likewise covered by the `none` outcome. -/
def _check_timestamp (now : Int) (payload : Payload) : Option Bool :=
  (pyInt ((payload.timestamp).getD (JVal.jint 0))).map
    (fun ts => decide (now - ts ≤ time_window_seconds))

/-- Embeds `_check_amount` (ghost_oracle.py lines 87-89): the amountWei
field defaults to 0 when absent, is coerced with `int(...)` (raising is the
`none` outcome), and the check passes iff `amount <= max_amount_wei`. -/
def _check_amount (payload : Payload) : Option Bool :=
  (pyInt ((payload.amountWei).getD (JVal.jint 0))).map
    (fun amount => decide (amount ≤ max_amount_wei))

/-- Python `str.upper()` as used on country codes: uppercases each
character (ASCII letters are the relevant range for the allow-set of
two-letter codes). -/
def pyUpper (s : String) : String := String.mk (s.data.map Char.toUpper)

/-- Embeds `_check_geography` (ghost_oracle.py lines 92-94): the
originCountry field defaults to the empty string, is uppercased and tested
for membership in the allow-set. Calling `.upper()` on a non-string value
raises `AttributeError`, the `none` outcome. -/
def _check_geography (payload : Payload) : Option Bool :=
  match (payload.originCountry).getD (JVal.jstr r"") with
  | JVal.jstr s => some (allowed_countries.contains (pyUpper s))
  | JVal.jint _ => none

/-- Boundary model of the risk-scoring service response as observed through
`requests.post(...)`, `raise_for_status()` and `r.json()`:
transport-level failure or a non-2xx status (`transportError`), a body that
does not parse as a JSON object (`badJson`), or a parsed object whose
riskScore field is absent, an integer, or a non-numeric string. -/
inductive RiskResponse where
  | transportError
  | badJson
  | ok (riskScore : Option JVal)

/-- Embeds `_check_external_risk` (ghost_oracle.py lines 97-113, identical
logic in cra_audit.py lines 34-50). An empty api_key (unset credential) is
falsy, so the check passes unconditionally without contacting the service.
Otherwise the request body is built first: a missing intentHash raises
`KeyError`, which the internal try/except catches, failing the check.
Transport errors and unparseable bodies are likewise caught and fail the
check. On a parsed body the score defaults to 0 when the riskScore field is
absent (`.get with default 0`) and the check passes iff score < 70; a
non-numeric score makes the comparison raise `TypeError`, caught, failing
the check. This helper never propagates an exception. -/
def _check_external_risk (api_key : String) (resp : RiskResponse) (payload : Payload) : Bool :=
  if api_key.isEmpty then true
  else
    match payload.intentHash with
    | none => false
    | some _ =>
      match resp with
      | RiskResponse.transportError => false
      | RiskResponse.badJson => false
      | RiskResponse.ok score =>
        match score.getD (JVal.jint 0) with
        | JVal.jint n => decide (n < 70)
        | JVal.jstr _ => false

/-- Environment of one audit: the current clock, the configured risk
credential, the outcome of the payload fetch (`none` = the fetch raised:
network error, non-2xx, malformed body) and the risk-service behaviour. -/
structure AuditEnv where
  now : Int
  api_key : String
  fetchResult : Option Payload
  riskResp : RiskResponse

/-- Observable outcome of one audit: the returned boolean and whether the
external risk service was actually contacted during the audit. -/
structure AuditOutcome where
  result : Bool
  riskCalled : Bool

/-- Embeds `perform_cra_audit` (ghost_oracle.py lines 116-135, identical
structure in cra_audit.py lines 52-68). The body first fetches the payload;
a raising fetch is caught by the outer try/except and yields False with no
check run. Then the `checks` dict literal evaluates ALL FOUR check calls
eagerly, in source order timestamp, amount, geography, externalRisk, before
the reporting loop runs; the loop then returns False at the first False
entry, so the returned boolean is the conjunction of the four. An exception
raised by one of the first three checks aborts the dict construction (so
later checks, including the risk call, are not evaluated) and is caught by
the outer try/except, yielding False. `riskCalled` records whether the
risk-service request was issued: it is, exactly when a credential is
configured and the payload has an intentHash field, regardless of the
outcomes of the earlier checks. -/
def perform_cra_audit (env : AuditEnv) : AuditOutcome :=
  match env.fetchResult with
  | none => AuditOutcome.mk false false
  | some payload =>
    match _check_timestamp env.now payload with
    | none => AuditOutcome.mk false false
    | some c1 =>
      match _check_amount payload with
      | none => AuditOutcome.mk false false
      | some c2 =>
        match _check_geography payload with
        | none => AuditOutcome.mk false false
        | some c3 =>
          AuditOutcome.mk
            (c1 && c2 && c3 && _check_external_risk env.api_key env.riskResp payload)
            (!env.api_key.isEmpty && (payload.intentHash).isSome)

/-- OFFICIAL_SALT (utils.py line 11). -/
def OFFICIAL_SALT : String := "0xC0RYM1LL3R_GHOST_AGENT_2025_1234567890abcdef"

/-- Embeds `check_contract_salt` (utils.py lines 18-22): reads the contract
authenticity constant (here passed in as the environment value
`contract_salt`) and compares it with exact equality against
OFFICIAL_SALT. `false` models the raised `Unauthorized contract` exception,
`true` the successful return. -/
def check_contract_salt (contract_salt : String) : Bool :=
  contract_salt == OFFICIAL_SALT

/-- The gas limit computed by `execute_tx`:
`tx[gas] = int(estimated * 1.2)` (utils.py line 42, ghost_oracle.py
line 172). Python evaluates `estimated * 1.2` in double precision and
`int(...)` truncates toward zero; for every estimate below 2^50 the
double-precision product truncates to exactly the integer 6 * estimated / 5
(floor), which this definition computes exactly. -/
def gasWithMargin (estimated : Nat) : Nat := 6 * estimated / 5

/-- The two contract functions `execute_tx` is invoked with
(`verifyIntent` takes a signature argument, `seizeAssets` does not). -/
inductive TxFn where
  | verifyIntent
  | seizeAssets

/-- Failure outcomes of one `execute_tx` call, each modelling a raised
Python exception: the salt guard raising, `estimate_gas` (or the build)
raising, `send_raw_transaction` raising, and the explicit
`RuntimeError(... failed (status ...))` on a receipt status other than 1. -/
inductive TxError where
  | saltMismatch
  | estimateFailed
  | sendFailed
  | reverted (status : Nat)

/-- The transaction as built and submitted by `execute_tx`: target
function, the freshly read account nonce, the current gas price, the gas
limit after the safety margin, and whether a signature argument was
appended. -/
structure BuiltTx where
  fn : TxFn
  nonce : Nat
  gasPrice : Nat
  gas : Nat
  hasSignature : Bool

/-- Chain-side environment of one `execute_tx` call: the fresh
`get_transaction_count` nonce, the gas price, the gas-estimation outcome
(`none` = estimation raised), whether the broadcast succeeds, and the
status field of the awaited receipt. -/
structure TxEnv where
  nonce : Nat
  gasPrice : Nat
  estimateGas : Option Nat
  sendOk : Bool
  receiptStatus : Nat

/-- Embeds `execute_tx` (utils.py lines 29-48; ghost_oracle.py lines
153-181 is the same executor without the leading salt check, and the spec
and claims cite the utils.py guard as the SaltGuard of this pipeline). The
call first runs the salt guard, then builds the call with the fresh nonce
and gas price, estimates gas and applies the margin, signs, sends, and
awaits the receipt; a receipt status other than 1 raises. On success the
submitted transaction is returned; each failure is the corresponding raised
exception. -/
def execute_tx (contract_salt : String) (fn : TxFn) (signature : Option Nat) (env : TxEnv) :
    Except TxError BuiltTx :=
  if check_contract_salt contract_salt = false then Except.error TxError.saltMismatch
  else
    match env.estimateGas with
    | none => Except.error TxError.estimateFailed
    | some estimated =>
      if env.sendOk = false then Except.error TxError.sendFailed
      else if env.receiptStatus = 1 then
        Except.ok (BuiltTx.mk fn env.nonce env.gasPrice (gasWithMargin estimated) signature.isSome)
      else Except.error (TxError.reverted env.receiptStatus)

/-- Observable effects of one `handle_intent` call: whether the audit ran,
whether a SignedApproval was produced, the verifyIntent and seizeAssets
executor calls (absent when not attempted, otherwise their outcome), and
whether the salt-mismatch exception escaped the call. -/
structure Trace where
  auditRun : Bool
  signatureProduced : Bool
  verifyCall : Option (Except TxError BuiltTx)
  seizeCall : Option (Except TxError BuiltTx)
  saltErrorRaised : Bool

/-- The trace of an observation that does nothing at all. -/
def noopTrace : Trace := Trace.mk false false none none false

/-- Environment of one processing cycle for one intent: the audit
environment, the authenticity constant the contract currently reports, and
the chain environments of the two submissions. -/
structure CycleEnv where
  audit : AuditEnv
  contractSalt : String
  verifyEnv : TxEnv
  seizeEnv : TxEnv

/-- Embeds `handle_intent` (ghost_oracle.py lines 190-211) composed with
the Signer and TransactionExecutor of utils.py (`sign_intent` and
`execute_tx`, both of which begin with `check_contract_salt`; ghost_oracle
also contains an inline `sign_intent` without the guard, but the spec and
the claims name utils.check_contract_salt as the SaltGuard gating this
pipeline). Control flow of the source: return immediately when the hash is
already in `processed`; run the audit and on failure add the hash to
`processed` and return; otherwise call `sign_intent`, whose salt check can
raise — that exception is NOT caught inside `handle_intent`, so it
propagates (caught only by `monitor_job`) and the hash is never added to
`processed`. With the signature produced, `execute_tx` is called for
verifyIntent and, only when it returns normally, for seizeAssets, both
inside one try/except; either way the hash is then added to `processed`.
The signature value itself is opaque here (`some 1`). -/
def handle_intent (env : CycleEnv) (processed : List Nat) (intentHash : Nat) :
    List Nat × Trace :=
  if intentHash ∈ processed then (processed, noopTrace)
  else if (perform_cra_audit env.audit).result = false then
    (intentHash :: processed, Trace.mk true false none none false)
  else if check_contract_salt env.contractSalt = false then
    (processed, Trace.mk true false none none true)
  else
    match execute_tx env.contractSalt TxFn.verifyIntent (some 1) env.verifyEnv with
    | Except.ok tx =>
      (intentHash :: processed,
        Trace.mk true true (some (Except.ok tx))
          (some (execute_tx env.contractSalt TxFn.seizeAssets none env.seizeEnv)) false)
    | Except.error e =>
      (intentHash :: processed, Trace.mk true true (some (Except.error e)) none false)

/-- An IntentDeclared event on chain: its identifier and the block it was
mined in. -/
structure ChainEvent where
  id : Nat
  block : Nat

/-- Boundary model of one monitoring tick (monitor_job, ghost_oracle.py
lines 217-224): the tick creates a FRESH event filter with
fromBlock set to latest — the chain height `latestAtCreation` at creation
time — and immediately calls get_new_entries once on it, which returns
exactly the events mined after the filter creation point and no later than
the poll, i.e. with block in the window (latestAtCreation, pollHeight].
Events mined at or before the creation height are never returned by this
fresh filter. -/
def filter_new_entries (events : List ChainEvent) (latestAtCreation pollHeight : Nat) :
    List ChainEvent :=
  events.filter (fun e => decide (latestAtCreation < e.block ∧ e.block ≤ pollHeight))

/-- A run of the monitor: one `filter_new_entries` tick per element of
`ticks` (each a pair of the chain height at filter creation and at the
poll), delivering the returned event identifiers in order. Because
monitor_job rebuilds the filter from latest on every tick, no state carries
from one tick to the next. -/
def monitor_run : List (Nat × Nat) → List ChainEvent → List Nat
  | [], _ => []
  | t :: ts, events =>
    (filter_new_entries events t.1 t.2).map ChainEvent.id ++ monitor_run ts events

/-- A configured risk-service credential used in concrete instances. -/
def keyK : String := r"k"

/-- An authenticity constant different from OFFICIAL_SALT, as reported by a
look-alike contract. -/
def badSalt : String := r"0xdeadbeef"

/-- A payload that passes every check: fresh timestamp, small amount,
allowed country (lowercase, exercising the case normalization), intentHash
present. -/
def pGood : Payload :=
  Payload.mk (some (JVal.jint 0)) (some (JVal.jint 5)) (some (JVal.jstr r"ca"))
    (some (JVal.jint 9)) []

/-- An audit environment with a successful fetch of pGood, no risk
credential, clock at 10. -/
def envGood : AuditEnv := AuditEnv.mk 10 r"" (some pGood) RiskResponse.transportError

/-- A payload whose timestamp is stale (age 1000 under envStale), with an
intentHash present; amount absent (defaults to 0) and an allowed country. -/
def pStale : Payload :=
  Payload.mk (some (JVal.jint 0)) none (some (JVal.jstr r"CA")) (some (JVal.jint 1)) []

/-- An audit environment with a configured credential whose payload fails
the timestamp check, while the risk service would answer with score 99. -/
def envStale : AuditEnv :=
  AuditEnv.mk 1000 keyK (some pStale) (RiskResponse.ok (some (JVal.jint 99)))

/-- An audit environment whose payload fetch raises. -/
def envFetchFail : AuditEnv := AuditEnv.mk 0 r"" none RiskResponse.transportError

/-- A payload whose originCountry field holds a number, so that the
geography check raises AttributeError on upper(). -/
def pBadCountry : Payload :=
  Payload.mk (some (JVal.jint 0)) none (some (JVal.jint 5)) none []

/-- An audit environment fetching pBadCountry. -/
def envBadCountry : AuditEnv := AuditEnv.mk 10 r"" (some pBadCountry) RiskResponse.transportError

/-- A transaction environment in which everything succeeds: estimate
100000, broadcast delivered, receipt status 1. -/
def txOk : TxEnv := TxEnv.mk 3 7 (some 100000) true 1

/-- A transaction environment whose transaction is mined but reverts:
receipt status 0. -/
def txRevert : TxEnv := TxEnv.mk 3 7 (some 100000) true 0

/-- A processing cycle whose audit passes but whose contract reports a
mismatched authenticity constant. -/
def cycSaltBad : CycleEnv := CycleEnv.mk envGood badSalt txOk txOk

/-- A processing cycle whose audit fails because the payload fetch raises,
against the authentic contract. -/
def cycReject : CycleEnv := CycleEnv.mk envFetchFail OFFICIAL_SALT txOk txOk

/-- A processing cycle whose audit passes and whose verifyIntent
transaction reverts. -/
def cycVerifyFail : CycleEnv := CycleEnv.mk envGood OFFICIAL_SALT txRevert txOk

/-- Branch lemma: an intent already in the processed set is a no-op. -/
theorem handle_intent_mem (env : CycleEnv) {processed : List Nat} {h : Nat}
    (hm : h ∈ processed) : handle_intent env processed h = (processed, noopTrace) := by
  unfold handle_intent
  rw [if_pos hm]

/-- Branch lemma: a failing audit records the rejection and marks the
intent processed; no signature, no transaction. -/
theorem handle_intent_rejected (env : CycleEnv) {processed : List Nat} {h : Nat}
    (hm : ¬ h ∈ processed) (ha : (perform_cra_audit env.audit).result = false) :
    handle_intent env processed h = (h :: processed, Trace.mk true false none none false) := by
  unfold handle_intent
  rw [if_neg hm, if_pos ha]

/-- Branch lemma: a passing audit followed by a salt mismatch raises out of
the call; nothing is signed or submitted and the processed set is
unchanged. -/
theorem handle_intent_salt_mismatch (env : CycleEnv) {processed : List Nat} {h : Nat}
    (hm : ¬ h ∈ processed) (ha : (perform_cra_audit env.audit).result = true)
    (hs : check_contract_salt env.contractSalt = false) :
    handle_intent env processed h = (processed, Trace.mk true false none none true) := by
  unfold handle_intent
  rw [if_neg hm, if_neg (by simp [ha]), if_pos hs]

/-- Branch lemma: audit and salt pass and verifyIntent returns normally, so
seizeAssets is also attempted and the intent is marked processed. -/
theorem handle_intent_verify_ok (env : CycleEnv) {processed : List Nat} {h : Nat}
    {tx : BuiltTx}
    (hm : ¬ h ∈ processed) (ha : (perform_cra_audit env.audit).result = true)
    (hs : check_contract_salt env.contractSalt = true)
    (hv : execute_tx env.contractSalt TxFn.verifyIntent (some 1) env.verifyEnv = Except.ok tx) :
    handle_intent env processed h =
      (h :: processed,
        Trace.mk true true (some (Except.ok tx))
          (some (execute_tx env.contractSalt TxFn.seizeAssets none env.seizeEnv)) false) := by
  unfold handle_intent
  rw [if_neg hm, if_neg (by simp [ha]), if_neg (by simp [hs]), hv]

/-- Branch lemma: audit and salt pass but verifyIntent raises, so
seizeAssets is not attempted; the intent is still marked processed. -/
theorem handle_intent_verify_err (env : CycleEnv) {processed : List Nat} {h : Nat}
    {e : TxError}
    (hm : ¬ h ∈ processed) (ha : (perform_cra_audit env.audit).result = true)
    (hs : check_contract_salt env.contractSalt = true)
    (hv : execute_tx env.contractSalt TxFn.verifyIntent (some 1) env.verifyEnv =
      Except.error e) :
    handle_intent env processed h =
      (h :: processed, Trace.mk true true (some (Except.error e)) none false) := by
  unfold handle_intent
  rw [if_neg hm, if_neg (by simp [ha]), if_neg (by simp [hs]), hv]

/-- C1: for every intent processed in a cycle, a SignedApproval is produced
only if the audit for that intent was fully passing and the SaltGuard
authenticity check succeeded in the same processing cycle; on an
authenticity mismatch (observed after a passing audit, which is when the
guard runs) no signature is produced, no transaction is submitted, and the
intent is not added to ProcessedSet. -/
theorem signing_requires_audit_and_salt (env : CycleEnv) (processed : List Nat) (h : Nat) :
    ((handle_intent env processed h).2.signatureProduced = true →
      (perform_cra_audit env.audit).result = true ∧
      check_contract_salt env.contractSalt = true) ∧
    (¬ h ∈ processed → (perform_cra_audit env.audit).result = true →
      check_contract_salt env.contractSalt = false →
      (handle_intent env processed h).2.signatureProduced = false ∧
      (handle_intent env processed h).2.verifyCall = none ∧
      (handle_intent env processed h).2.seizeCall = none ∧
      (handle_intent env processed h).1 = processed) := by
  constructor
  · intro hsig
    by_cases hm : h ∈ processed
    · rw [handle_intent_mem env hm] at hsig
      simp [noopTrace] at hsig
    · cases ha : (perform_cra_audit env.audit).result with
      | false =>
        rw [handle_intent_rejected env hm ha] at hsig
        simp at hsig
      | true =>
        cases hs : check_contract_salt env.contractSalt with
        | false =>
          rw [handle_intent_salt_mismatch env hm ha hs] at hsig
          simp at hsig
        | true => exact ⟨rfl, rfl⟩
  · intro hm ha hs
    rw [handle_intent_salt_mismatch env hm ha hs]
    exact ⟨rfl, rfl, rfl, rfl⟩

/-- Witness for C1 at a concrete cycle: audit passes, the contract reports
a wrong salt, and the intent 42 is neither signed nor submitted nor marked
processed. -/
theorem signing_requires_audit_and_salt_witness :
    (handle_intent cycSaltBad [] 42).2.signatureProduced = false ∧
    (handle_intent cycSaltBad [] 42).2.verifyCall = none ∧
    (handle_intent cycSaltBad [] 42).2.seizeCall = none ∧
    (handle_intent cycSaltBad [] 42).1 = [] :=
  (signing_requires_audit_and_salt cycSaltBad [] 42).2 (by decide) (by decide) (by decide)

/-- C6: once a terminal decision is reached for an intent (rejected, or
approved and submitted regardless of transaction success), its identifier
is in ProcessedSet exactly once, and every later observation of the same
identifier is a no-op: no second audit, no second signature, no second
transaction, set unchanged. -/
theorem processed_once_and_idempotent (env : CycleEnv) (processed : List Nat) (h : Nat)
    (hm : ¬ h ∈ processed)
    (hterm : (perform_cra_audit env.audit).result = false ∨
      ((perform_cra_audit env.audit).result = true ∧
        check_contract_salt env.contractSalt = true)) :
    h ∈ (handle_intent env processed h).1 ∧
    ((handle_intent env processed h).1).count h = 1 ∧
    (∀ env2 : CycleEnv,
      handle_intent env2 (handle_intent env processed h).1 h =
        ((handle_intent env processed h).1, noopTrace)) := by
  have hone : (handle_intent env processed h).1 = h :: processed := by
    rcases hterm with ha | ⟨ha, hs⟩
    · rw [handle_intent_rejected env hm ha]
    · cases hv : execute_tx env.contractSalt TxFn.verifyIntent (some 1) env.verifyEnv with
      | ok tx => rw [handle_intent_verify_ok env hm ha hs hv]
      | error e => rw [handle_intent_verify_err env hm ha hs hv]
  rw [hone]
  refine ⟨List.mem_cons_self h processed, ?_, ?_⟩
  · rw [List.count_cons_self, List.count_eq_zero.mpr hm]
  · intro env2
    exact handle_intent_mem env2 (List.mem_cons_self h processed)

/-- Witness for C6 at a concrete cycle: the audit of intent 5 fails (fetch
raises), so 5 is recorded exactly once in the processed set. -/
theorem processed_once_and_idempotent_witness :
    5 ∈ (handle_intent cycReject [] 5).1 ∧ ((handle_intent cycReject [] 5).1).count 5 = 1 := by
  have hmain := processed_once_and_idempotent cycReject [] 5 (by decide) (Or.inl (by decide))
  exact ⟨hmain.1, hmain.2.1⟩

/-- Counterexample to C2: in the cycle envStale the very first check
(timestamp) fails, yet the external risk service is still contacted —
the checks dict literal evaluates all four check calls eagerly before the
short-circuiting report loop runs, so evaluation does not stop at the first
failing check. -/
theorem audit_short_circuit_cex :
    _check_timestamp envStale.now pStale = some false ∧
    (perform_cra_audit envStale).result = false ∧
    (perform_cra_audit envStale).riskCalled = true := by
  exact ⟨by decide, by decide, by decide⟩

/-- C2 as amended: when the payload fetch succeeds and the first three
checks complete without an internal error, all four checks are evaluated in
the fixed order timestamp, amount, geography, external risk; the overall
result is their conjunction (so the pass/fail outcome is as if evaluation
stopped at the first failure), but the external risk-service call is made
whenever a credential is configured and the payload carries an intentHash,
even when an earlier check has already failed. -/
theorem audit_eager_conjunction (env : AuditEnv) (payload : Payload) (b1 b2 b3 : Bool)
    (hf : env.fetchResult = some payload)
    (h1 : _check_timestamp env.now payload = some b1)
    (h2 : _check_amount payload = some b2)
    (h3 : _check_geography payload = some b3) :
    (perform_cra_audit env).result =
      (b1 && b2 && b3 && _check_external_risk env.api_key env.riskResp payload) ∧
    (perform_cra_audit env).riskCalled =
      (!env.api_key.isEmpty && (payload.intentHash).isSome) := by
  simp [perform_cra_audit, hf, h1, h2, h3]

/-- Witness for C2 as amended, at the concrete cycle envStale. -/
theorem audit_eager_conjunction_witness :
    (perform_cra_audit envStale).result =
      (false && true && true && _check_external_risk envStale.api_key envStale.riskResp pStale) ∧
    (perform_cra_audit envStale).riskCalled =
      (!envStale.api_key.isEmpty && (pStale.intentHash).isSome) :=
  audit_eager_conjunction envStale pStale false true true rfl (by decide) (by decide) (by decide)

/-- Counterexample to C3: with a credential configured, a response that
returns no numeric risk score at all (a parsed body without a riskScore
field — a malformed response for a service specified to return one) makes
the check PASS, because the score defaults to 0; the claim says any
malformed response makes the check fail. -/
theorem risk_missing_score_passes_cex :
    _check_external_risk keyK (RiskResponse.ok none) pStale = true ∧ keyK.isEmpty = false := by
  exact ⟨by decide, by decide⟩

/-- C3 as amended: the external risk check passes unconditionally when no
credential is configured; with a credential configured it fails on a
missing payload intentHash (the request body raises before the call), on
any transport error or timeout, on an unparseable body, and on a
non-numeric score (the comparison raises); when the response contains a
numeric risk score the check passes iff the score is strictly below 70;
but a parsed response with no riskScore field defaults the score to 0 and
passes. -/
theorem risk_check_characterization (api_key : String) (resp : RiskResponse)
    (payload : Payload) :
    (api_key.isEmpty = true → _check_external_risk api_key resp payload = true) ∧
    (api_key.isEmpty = false → payload.intentHash = none →
      _check_external_risk api_key resp payload = false) ∧
    (api_key.isEmpty = false → (payload.intentHash).isSome = true →
      resp = RiskResponse.transportError →
      _check_external_risk api_key resp payload = false) ∧
    (api_key.isEmpty = false → (payload.intentHash).isSome = true →
      resp = RiskResponse.badJson →
      _check_external_risk api_key resp payload = false) ∧
    (∀ n : Int, api_key.isEmpty = false → (payload.intentHash).isSome = true →
      resp = RiskResponse.ok (some (JVal.jint n)) →
      (_check_external_risk api_key resp payload = true ↔ n < 70)) ∧
    (api_key.isEmpty = false → (payload.intentHash).isSome = true →
      resp = RiskResponse.ok none →
      _check_external_risk api_key resp payload = true) ∧
    (∀ s : String, api_key.isEmpty = false → (payload.intentHash).isSome = true →
      resp = RiskResponse.ok (some (JVal.jstr s)) →
      _check_external_risk api_key resp payload = false) := by
  unfold _check_external_risk
  refine ⟨fun hk => ?_, fun hk hh => ?_, fun hk hh hr => ?_, fun hk hh hr => ?_,
    fun n hk hh hr => ?_, fun hk hh hr => ?_, fun s hk hh hr => ?_⟩
  · rw [if_pos hk]
  · rw [if_neg (by simp [hk]), hh]
  all_goals obtain ⟨v, hv⟩ := Option.isSome_iff_exists.mp hh
  all_goals rw [if_neg (by simp [hk]), hv, hr]
  all_goals simp

/-- Witness for C3 as amended: with the credential keyK and payload pStale,
score 69 passes and score 70 fails (strict less-than at the boundary). -/
theorem risk_check_characterization_witness :
    (_check_external_risk keyK (RiskResponse.ok (some (JVal.jint 69))) pStale = true ↔
      (69 : Int) < 70) ∧
    (_check_external_risk keyK (RiskResponse.ok (some (JVal.jint 70))) pStale = true ↔
      (70 : Int) < 70) :=
  ⟨(risk_check_characterization keyK (RiskResponse.ok (some (JVal.jint 69))) pStale).2.2.2.2.1
      69 (by decide) (by decide) rfl,
    (risk_check_characterization keyK (RiskResponse.ok (some (JVal.jint 70))) pStale).2.2.2.2.1
      70 (by decide) (by decide) rfl⟩

/-- Counterexample to C4: the code computes the gas limit as
`int(estimated * 1.2)`, which truncates; at an estimate of 1 the gas limit
is 1, not ceil(1 times 1.2) = 2 as the claim states. -/
theorem gas_margin_not_ceil_cex : ¬ gasWithMargin 1 = Nat.ceil ((1 : ℚ) * (12 / 10)) := by
  have h2 : Nat.ceil ((1 : ℚ) * (12 / 10)) = 2 := by
    rw [Nat.ceil_eq_iff (by norm_num)]
    norm_num
  rw [h2]
  decide

/-- C4 as amended: for every gas estimate e in the range where the
double-precision product is exact (below 2 to the 50), the submitted gas
limit equals floor(e times 1.2) — truncation, not ceiling — and an
estimate of 100000 yields exactly 120000; every transaction execute_tx
returns was built with that gas limit over its environment estimate. -/
theorem gas_margin_floor :
    (∀ e : Nat, gasWithMargin e = Nat.floor ((e : ℚ) * (12 / 10))) ∧
    gasWithMargin 100000 = 120000 ∧
    (∀ (salt : String) (fn : TxFn) (sig : Option Nat) (env : TxEnv) (tx : BuiltTx),
      execute_tx salt fn sig env = Except.ok tx →
      ∃ estimated, env.estimateGas = some estimated ∧ tx.gas = gasWithMargin estimated) := by
  refine ⟨?_, by decide, ?_⟩
  · intro e
    rw [show ((e : ℚ) * (12 / 10)) = ((6 * e : ℕ) : ℚ) / ((5 : ℕ) : ℚ) by push_cast; ring]
    rw [Nat.floor_div_nat, Nat.floor_natCast]
    rfl
  · intro salt fn sig env tx htx
    unfold execute_tx at htx
    by_cases hs : check_contract_salt salt = false
    · rw [if_pos hs] at htx
      exact Except.noConfusion htx
    · rw [if_neg hs] at htx
      cases hest : env.estimateGas with
      | none =>
        simp only [hest] at htx
        exact Except.noConfusion htx
      | some estimated =>
        simp only [hest] at htx
        by_cases hsend : env.sendOk = false
        · rw [if_pos hsend] at htx
          exact Except.noConfusion htx
        · rw [if_neg hsend] at htx
          by_cases hrec : env.receiptStatus = 1
          · rw [if_pos hrec] at htx
            injection htx with hb
            exact ⟨estimated, rfl, by rw [← hb]⟩
          · rw [if_neg hrec] at htx
            exact Except.noConfusion htx

/-- Witness for C4 as amended: the successful submission in txOk (estimate
100000) carries gas limit 120000 = gasWithMargin 100000. -/
theorem gas_margin_floor_witness :
    ∃ estimated, txOk.estimateGas = some estimated ∧
      (BuiltTx.mk TxFn.verifyIntent 3 7 120000 true).gas = gasWithMargin estimated :=
  gas_margin_floor.2.2 OFFICIAL_SALT TxFn.verifyIntent (some 1) txOk
    (BuiltTx.mk TxFn.verifyIntent 3 7 120000 true) (by rfl)

/-- C5 (code bug): monitor_job recreates its event filter from the latest
block on every tick, so an IntentDeclared event mined between two ticks is
never returned by any tick and is never delivered to the intent processor,
contradicting the claimed exactly-once delivery. Concretely, with ticks
observing chain heights (1,1) and (5,6), the event with identifier 42 mined
in block 3 — strictly between the two filter creations — is delivered zero
times; the second conjunct shows the model is not vacuous: the same run
does deliver an event mined inside the second tick window (block 6). -/
theorem monitor_drops_between_tick_event :
    monitor_run [(1, 1), (5, 6)] [ChainEvent.mk 42 3] = [] ∧
    monitor_run [(1, 1), (5, 6)] [ChainEvent.mk 42 6] = [42] := by
  exact ⟨rfl, rfl⟩

/-- C7: the audit returns fully-passing iff the payload fetch succeeds and
all four checks individually pass; a payload-fetch failure yields an
overall failed audit with no check run (in particular the risk service is
not contacted). -/
theorem audit_passes_iff_all_checks (env : AuditEnv) :
    ((perform_cra_audit env).result = true ↔
      ∃ payload, env.fetchResult = some payload ∧
        _check_timestamp env.now payload = some true ∧
        _check_amount payload = some true ∧
        _check_geography payload = some true ∧
        _check_external_risk env.api_key env.riskResp payload = true) ∧
    (env.fetchResult = none →
      (perform_cra_audit env).result = false ∧
      (perform_cra_audit env).riskCalled = false) := by
  constructor
  · cases hf : env.fetchResult with
    | none =>
      simp only [perform_cra_audit, hf]
      simp
    | some payload =>
      simp only [perform_cra_audit, hf]
      cases h1 : _check_timestamp env.now payload with
      | none => simp [hf, h1]
      | some c1 =>
        cases h2 : _check_amount payload with
        | none => simp [hf, h1, h2]
        | some c2 =>
          cases h3 : _check_geography payload with
          | none => simp [hf, h1, h2, h3]
          | some c3 =>
            simp [hf, h1, h2, h3, Bool.and_eq_true, and_assoc]
  · intro hf
    simp [perform_cra_audit, hf]

/-- Witness for C7 at the concrete environment envFetchFail, whose payload
fetch raises: the audit fails and the risk service is not contacted. -/
theorem audit_passes_iff_all_checks_witness :
    (perform_cra_audit envFetchFail).result = false ∧
    (perform_cra_audit envFetchFail).riskCalled = false :=
  (audit_passes_iff_all_checks envFetchFail).2 rfl

/-- C8: a mined receipt whose status is not success makes execute_tx
surface an error to its caller, and within handle_intent a failing
verifyIntent submission means the seizeAssets submission is not
attempted. -/
theorem receipt_failure_and_verify_abort :
    (∀ (salt : String) (fn : TxFn) (sig : Option Nat) (env : TxEnv) (estimated : Nat),
      check_contract_salt salt = true → env.estimateGas = some estimated →
      env.sendOk = true → ¬ env.receiptStatus = 1 →
      execute_tx salt fn sig env = Except.error (TxError.reverted env.receiptStatus)) ∧
    (∀ (env : CycleEnv) (processed : List Nat) (h : Nat) (e : TxError),
      (handle_intent env processed h).2.verifyCall = some (Except.error e) →
      (handle_intent env processed h).2.seizeCall = none) := by
  constructor
  · intro salt fn sig env estimated hsalt hest hsend hrec
    unfold execute_tx
    rw [if_neg (by simp [hsalt])]
    simp only [hest]
    rw [if_neg (by simp [hsend]), if_neg hrec]
  · intro env processed h e hv
    by_cases hm : h ∈ processed
    · rw [handle_intent_mem env hm] at hv
      simp [noopTrace] at hv
    · cases ha : (perform_cra_audit env.audit).result with
      | false =>
        rw [handle_intent_rejected env hm ha]
      | true =>
        cases hs : check_contract_salt env.contractSalt with
        | false =>
          rw [handle_intent_salt_mismatch env hm ha hs]
        | true =>
          cases hvx : execute_tx env.contractSalt TxFn.verifyIntent (some 1) env.verifyEnv with
          | ok tx =>
            rw [handle_intent_verify_ok env hm ha hs hvx] at hv
            exact absurd (Option.some.inj hv) (fun hc => Except.noConfusion hc)
          | error e2 =>
            rw [handle_intent_verify_err env hm ha hs hvx]

/-- Witness for C8: the reverted submission txRevert surfaces the
reverted-receipt error, and in the concrete cycle cycVerifyFail, whose
verifyIntent call fails, seizeAssets is not attempted. -/
theorem receipt_failure_and_verify_abort_witness :
    execute_tx OFFICIAL_SALT TxFn.verifyIntent (some 1) txRevert =
      Except.error (TxError.reverted txRevert.receiptStatus) ∧
    (handle_intent cycVerifyFail [] 42).2.seizeCall = none :=
  ⟨receipt_failure_and_verify_abort.1 OFFICIAL_SALT TxFn.verifyIntent (some 1) txRevert 100000
      (by decide) rfl rfl (by decide),
    receipt_failure_and_verify_abort.2 cycVerifyFail [] 42
      (TxError.reverted 0) (by rfl)⟩

/-- C9: for a payload with numeric timestamp ts, the timestamp check passes
iff now - ts is at most the configured window, whose default is 300; age
exactly 300 passes, age 301 fails, and any negative age (future timestamp)
passes. -/
theorem timestamp_check_boundary (now ts : Int) (payload : Payload)
    (hts : payload.timestamp = some (JVal.jint ts)) :
    time_window_seconds = 300 ∧
    (_check_timestamp now payload = some true ↔ now - ts ≤ 300) ∧
    (now - ts = 300 → _check_timestamp now payload = some true) ∧
    (now - ts = 301 → _check_timestamp now payload = some false) ∧
    (now - ts < 0 → _check_timestamp now payload = some true) := by
  have hbase : _check_timestamp now payload = some (decide (now - ts ≤ 300)) := by
    unfold _check_timestamp
    rw [hts]
    rfl
  refine ⟨rfl, ?_, ?_, ?_, ?_⟩
  · rw [hbase]
    simp
  · intro h
    rw [hbase, h]
    rfl
  · intro h
    rw [hbase, h]
    rfl
  · intro h
    rw [hbase]
    simp
    omega

/-- Witness for C9 at the boundary: with the clock at 300 and pGood
declared at time 0 (age exactly the 300-unit window), the check passes. -/
theorem timestamp_check_boundary_witness :
    _check_timestamp 300 pGood = some true :=
  (timestamp_check_boundary 300 0 pGood rfl).2.2.1 (by decide)

/-- C10: the audit operation is a total function and every modelled
exception path — a raising payload fetch, a raising timestamp, amount or
geography check (for example a non-integer amount field), and a missing
intentHash during a configured risk call — results in the audit returning
failed rather than propagating. -/
theorem audit_total_fail_safe (env : AuditEnv) :
    (env.fetchResult = none → (perform_cra_audit env).result = false) ∧
    (∀ payload, env.fetchResult = some payload →
      (_check_timestamp env.now payload = none ∨
        _check_amount payload = none ∨
        _check_geography payload = none) →
      (perform_cra_audit env).result = false) ∧
    (∀ payload, env.fetchResult = some payload →
      env.api_key.isEmpty = false → payload.intentHash = none →
      (perform_cra_audit env).result = false) := by
  refine ⟨fun hf => ?_, fun payload hf hraise => ?_, fun payload hf hk hh => ?_⟩
  · simp only [perform_cra_audit, hf]
  · simp only [perform_cra_audit, hf]
    cases h1 : _check_timestamp env.now payload with
    | none => rfl
    | some c1 =>
      cases h2 : _check_amount payload with
      | none => rfl
      | some c2 =>
        cases h3 : _check_geography payload with
        | none => rfl
        | some c3 =>
          rcases hraise with hx | hx | hx
          · rw [h1] at hx
            exact Option.noConfusion hx
          · rw [h2] at hx
            exact Option.noConfusion hx
          · rw [h3] at hx
            exact Option.noConfusion hx
  · simp only [perform_cra_audit, hf]
    cases h1 : _check_timestamp env.now payload with
    | none => rfl
    | some c1 =>
      cases h2 : _check_amount payload with
      | none => rfl
      | some c2 =>
        cases h3 : _check_geography payload with
        | none => rfl
        | some c3 =>
          have hrisk : _check_external_risk env.api_key env.riskResp payload = false := by
            unfold _check_external_risk
            rw [if_neg (by simp [hk]), hh]
          simp [hrisk]

/-- Witness for C10 at the concrete environment envBadCountry, whose
payload holds a numeric originCountry so that the geography check raises:
the audit returns failed. -/
theorem audit_total_fail_safe_witness :
    (perform_cra_audit envBadCountry).result = false :=
  (audit_total_fail_safe envBadCountry).2.1 pBadCountry rfl (Or.inr (Or.inr (by decide)))

end GhostAgent
